import Mathlib

set_option maxRecDepth 8000

/-!
Verification of the CHARACTER-port handler (`character.go`) of the archon
login server against its specification.

The development shallowly embeds the handler logic: machine integers are
`Nat` with explicit `% 2 ^ w` at the points where the source truncates;
database calls are oracle results carried in an environment (`DBEnv`), with
a concrete table model (`CharDB`) interpreting the write operations the
handlers emit; fallible paths return an explicit result (`HResult`),
including a `crash` outcome for a Go index-out-of-range panic.

The binary record codec (`util.BytesFromStruct`) and a few constants
(`BaseStats`, `BaseKeyConfig`) are code of the repository that is not part
of the staged source; definitions for them are modelled from the spec and
say so in their doc comments.
-/

/-- Modelled from the spec (Binary Record Codec, section 4.1): a 16-bit
little-endian field serializes to its two bytes. -/
def le16 (x : Nat) : List Nat := [x % 256, x / 256 % 256]

/-- Modelled from the spec (Binary Record Codec, section 4.1): a 32-bit
little-endian field serializes to its four bytes. -/
def le32 (x : Nat) : List Nat :=
  [x % 256, x / 2 ^ 8 % 256, x / 2 ^ 16 % 256, x / 2 ^ 24 % 256]

/-- Go `copy(dst, src)` into a zero-filled fixed buffer of length `n`:
the first `min n src.length` bytes come from `src`, the rest stay zero. -/
def copyFixed (n : Nat) (src : List Nat) : List Nat :=
  src.take n ++ List.replicate (n - src.length) 0

/-- Serialize a fixed-capacity byte array held as a function. -/
def serBytes {n : Nat} (f : Fin n → Nat) : List Nat :=
  (List.finRange n).map fun i => f i % 256

/-- Serialize a fixed-capacity array of 16-bit values held as a function. -/
def serU16 {n : Nat} (f : Fin n → Nat) : List Nat :=
  (List.finRange n).flatMap fun i => le16 (f i)

/-- One shift-and-conditionally-xor step of the reflected CRC-32. -/
def crc32Step (c : Nat) : Nat :=
  if c % 2 = 1 then Nat.xor (c / 2) 0xEDB88320 else c / 2

/-- Fold one byte into a CRC-32 accumulator (reflected, IEEE polynomial). -/
def crc32Update (crc b : Nat) : Nat := crc32Step^[8] (Nat.xor crc (b % 256))

/-- Model of Go `hash/crc32.ChecksumIEEE` (standard library, external to the
repository): bitwise reflected CRC-32 over the byte sequence. -/
def crc32 (data : List Nat) : Nat :=
  Nat.xor (data.foldl crc32Update 0xFFFFFFFF) 0xFFFFFFFF

/-- `GuildcardEntry` of character.go: one friend-list record. Fixed-capacity
text arrays are functions from their index type; scalar fields are the
numeric column values. -/
structure GuildcardEntry where
  guildcard : Nat
  name : Fin 24 → Nat
  teamName : Fin 16 → Nat
  description : Fin 88 → Nat
  reserved : Nat
  language : Nat
  sectionID : Nat
  charClass : Nat
  padding : Nat
  comment : Fin 88 → Nat

/-- The zero value Go gives each entry of a `new(GuildcardData)`. -/
def zeroGuildcardEntry : GuildcardEntry :=
  ⟨0, fun _ => 0, fun _ => 0, fun _ => 0, 0, 0, 0, 0, 0, fun _ => 0⟩

/-- `GuildcardData` of character.go: the fixed-layout aggregate. The three
unknown regions are byte arrays (sizes 0x114, 0x1DE8 and 0x78 followed by
0x1BC); `Entries` has exactly 104 slots, as in the source. -/
structure GuildcardData where
  unknown : Fin 0x114 → Nat
  blocked : Fin 0x1DE8 → Nat
  unknown2 : Fin 0x78 → Nat
  entries : Fin 104 → GuildcardEntry
  unknown3 : Fin 0x1BC → Nat

/-- Serialization of one `GuildcardEntry` in declared field order (modelled
from the spec: fixed-layout little-endian encoding, byte-for-byte the wire
shape). -/
def serGuildcardEntry (e : GuildcardEntry) : List Nat :=
  le32 e.guildcard ++ serU16 e.name ++ serU16 e.teamName ++
    serU16 e.description ++
    [e.reserved % 256, e.language % 256, e.sectionID % 256, e.charClass % 256] ++
    le32 e.padding ++ serU16 e.comment

/-- Serialization of the whole `GuildcardData` aggregate in declared field
order (modelled from the spec: `util.BytesFromStruct` is not part of the
staged source; the spec fixes the layout as the declared fields, exact and
version-stable). -/
def serializeGuildcardData (d : GuildcardData) : List Nat :=
  serBytes d.unknown ++ serBytes d.blocked ++ serBytes d.unknown2 ++
    ((List.finRange 104).flatMap fun i => serGuildcardEntry (d.entries i)) ++
    serBytes d.unknown3

theorem length_bind_const {α β : Type} (l : List α) (f : α → List β) (k : Nat)
    (h : ∀ a, (f a).length = k) : (l.flatMap f).length = l.length * k := by
  induction l with
  | nil => simp
  | cons a t ih =>
      simp only [List.flatMap_cons, List.length_append, ih, h, List.length_cons]
      ring

theorem serBytes_length {n : Nat} (f : Fin n → Nat) : (serBytes f).length = n := by
  simp [serBytes]

theorem serU16_length {n : Nat} (f : Fin n → Nat) : (serU16 f).length = n * 2 := by
  have := length_bind_const (List.finRange n) (fun i => le16 (f i)) 2
    (fun _ => rfl)
  simpa [serU16] using this

theorem serGuildcardEntry_length (e : GuildcardEntry) :
    (serGuildcardEntry e).length = 444 := by
  simp [serGuildcardEntry, serU16_length, le32]

theorem serializeGuildcardData_length (d : GuildcardData) :
    (serializeGuildcardData d).length = 54672 := by
  have h := length_bind_const (List.finRange 104)
    (fun i => serGuildcardEntry (d.entries i)) 444
    (fun i => serGuildcardEntry_length (d.entries i))
  simp [serializeGuildcardData, serBytes_length, h]

/-- One row of the `guildcard_entries` query as the handler scans it:
`friend_gc, name, team_name, description, language, section_id, char_class,
comment`. The text columns are scanned into local variables the source then
discards, so they never reach the aggregate. -/
structure GcRow where
  friendGc : Nat
  name : List Nat
  teamName : List Nat
  description : List Nat
  language : Nat
  sectionID : Nat
  charClass : Nat
  comment : List Nat
deriving DecidableEq

/-- The entry the loop body of `handleGuildcardDataStart` leaves in slot `i`:
only `Guildcard`, `Language`, `SectionID` and `CharClass` are scanned into
the entry; every other field keeps its zero value. -/
def entryFromRow (r : GcRow) : GuildcardEntry :=
  { zeroGuildcardEntry with
    guildcard := r.friendGc
    language := r.language
    sectionID := r.sectionID
    charClass := r.charClass }

/-- `CharacterStats` of character.go: the seven per-class base attributes. -/
structure CharacterStats where
  atp : Nat
  mst : Nat
  evp : Nat
  hp : Nat
  dfp : Nat
  ata : Nat
  lck : Nat
deriving DecidableEq

/-- Modelled from the spec: `BaseStats`, the static read-only base stat
table keyed by character class, is not part of the staged source. The
claims depend only on the lookup itself, never on the attribute values, so
the table is a total function with unspecified (zero) entries. -/
def BaseStats : Nat → CharacterStats := fun _ => ⟨0, 0, 0, 0, 0, 0, 0⟩

/-- The fixed default starting currency amount (`meseta := 300` in
`handleCharacterUpdate`). -/
def defaultMeseta : Nat := 300

/-- Modelled from the spec: `BaseKeyConfig`, the 420-byte default
key-config block, is not part of the staged source; only its length and
identity across requests matter to the claims, so its bytes are zero. -/
def baseKeyConfig : List Nat := List.replicate 420 0

/-- `CharacterPreview` of character.go. Float fields (`PropX`, `PropY`) are
carried as their 32-bit patterns; the source never computes with them.
`unknown` and `pad` are the zero-initialized reserved regions. -/
structure CharacterPreview where
  experience : Nat
  level : Nat
  gcStr : List Nat
  unknown : List Nat
  nameColor : Nat
  model : Nat
  pad : List Nat
  nameColorChksm : Nat
  sectionId : Nat
  charClass : Nat
  v2flags : Nat
  version : Nat
  v1flags : Nat
  costume : Nat
  skin : Nat
  face : Nat
  head : Nat
  hair : Nat
  hairRed : Nat
  hairGreen : Nat
  hairBlue : Nat
  propX : Nat
  propY : Nat
  name : List Nat
  playtime : Nat
deriving DecidableEq

/-- The columns `handleCharacterSelect` reads for a populated slot, in the
order of its SELECT list. -/
structure CharSelectRow where
  experience : Nat
  level : Nat
  gcStr : List Nat
  nameColor : Nat
  nameColorChksm : Nat
  model : Nat
  sectionId : Nat
  charClass : Nat
  v2flags : Nat
  version : Nat
  v1flags : Nat
  costume : Nat
  skin : Nat
  face : Nat
  head : Nat
  hair : Nat
  hairRed : Nat
  hairGreen : Nat
  hairBlue : Nat
  propX : Nat
  propY : Nat
  name : List Nat
  playtime : Nat
deriving DecidableEq

/-- The preview record `handleCharacterSelect` sends for a populated slot:
the scanned columns, with the guildcard string and name copied into their
zero-filled fixed arrays (16 and 24 bytes) and the reserved regions zero. -/
def previewOf (r : CharSelectRow) : CharacterPreview :=
  { experience := r.experience, level := r.level
    gcStr := copyFixed 16 r.gcStr
    unknown := List.replicate 8 0
    nameColor := r.nameColor, model := r.model
    pad := List.replicate 15 0
    nameColorChksm := r.nameColorChksm
    sectionId := r.sectionId, charClass := r.charClass
    v2flags := r.v2flags, version := r.version, v1flags := r.v1flags
    costume := r.costume, skin := r.skin, face := r.face, head := r.head
    hair := r.hair, hairRed := r.hairRed, hairGreen := r.hairGreen
    hairBlue := r.hairBlue, propX := r.propX, propY := r.propY
    name := copyFixed 24 r.name
    playtime := r.playtime }

/-- One value bound to a `?` placeholder of a SQL statement. -/
inductive SQLValue where
  | nat (n : Nat)
  | bytes (bs : List Nat)
  | f32 (bits : Nat)
deriving DecidableEq

/-- The dressing-room UPDATE statement of `handleCharacterUpdate`, exactly
as the source concatenates it (including the fragment between hair_blue and
proportion_x, where the source puts the comma before `=?` instead of after,
leaving the statement syntactically invalid SQL). -/
def dressingRoomUpdateSQL : String :=
  "UPDATE characters SET name_color=?, model=?, " ++
    "name_color_chksm=?, section_id=?, char_class=?, costume=?, skin=?, " ++
    "head=?, hair_red=?, hair_green=?, hair_blue,=? proportion_x=?, " ++
    "proportion_y=?, name=? WHERE guildcard = ? AND slot_num = ?"

/-- The arguments `handleCharacterUpdate` passes to the dressing-room
UPDATE, in the order of the source's call: the eleven scalar appearance
fields, then `Name`, then `PropX`, `PropY`, then the WHERE values. -/
def dressingRoomArgs (p : CharacterPreview) (gc slot : Nat) : List SQLValue :=
  [.nat p.nameColor, .nat p.model, .nat p.nameColorChksm, .nat p.sectionId,
   .nat p.charClass, .nat p.costume, .nat p.skin, .nat p.head,
   .nat p.hairRed, .nat p.hairGreen, .nat p.hairBlue,
   .bytes p.name, .f32 p.propX, .f32 p.propY, .nat gc, .nat slot]

/-- The binding the claim describes (each submitted field bound to its
matching column, in the statement's column order `..., hair_blue,
proportion_x, proportion_y, name, guildcard, slot_num`); written from the
spec's words as the refinement target, to be compared with
`dressingRoomArgs`. -/
def claimMatchedDressingArgs (p : CharacterPreview) (gc slot : Nat) :
    List SQLValue :=
  [.nat p.nameColor, .nat p.model, .nat p.nameColorChksm, .nat p.sectionId,
   .nat p.charClass, .nat p.costume, .nat p.skin, .nat p.head,
   .nat p.hairRed, .nat p.hairGreen, .nat p.hairBlue,
   .f32 p.propX, .f32 p.propY, .bytes p.name, .nat gc, .nat slot]

/-- One row of the `characters` table as the recreate path of
`handleCharacterUpdate` inserts it: the INSERT's values in order, with the
bare literals of the statement (`0, 1`, the `0` before the stats and the
two trailing `0`s) kept as the fields they seed. -/
structure CharacterRow where
  guildcard : Nat
  slot : Nat
  experience : Nat
  level : Nat
  gcStr : List Nat
  nameColor : Nat
  model : Nat
  nameColorChksm : Nat
  sectionId : Nat
  charClass : Nat
  v2flags : Nat
  version : Nat
  v1flags : Nat
  costume : Nat
  skin : Nat
  face : Nat
  head : Nat
  hair : Nat
  hairRed : Nat
  hairGreen : Nat
  hairBlue : Nat
  propX : Nat
  propY : Nat
  name : List Nat
  playtime : Nat
  atp : Nat
  mst : Nat
  evp : Nat
  hp : Nat
  dfp : Nat
  ata : Nat
  lck : Nat
  meseta : Nat
  pad1 : Nat
  pad2 : Nat
deriving DecidableEq

/-- The row the recreate path inserts for (account, slot): the submitted
preview fields, the base stat entry for the submitted class, and the fixed
default currency. -/
def newCharacterRow (gc slot : Nat) (p : CharacterPreview) : CharacterRow :=
  { guildcard := gc, slot := slot, experience := 0, level := 1
    gcStr := p.gcStr, nameColor := p.nameColor, model := p.model
    nameColorChksm := p.nameColorChksm, sectionId := p.sectionId
    charClass := p.charClass, v2flags := p.v2flags, version := p.version
    v1flags := p.v1flags, costume := p.costume, skin := p.skin
    face := p.face, head := p.head, hair := p.hair, hairRed := p.hairRed
    hairGreen := p.hairGreen, hairBlue := p.hairBlue
    propX := p.propX, propY := p.propY, name := p.name, playtime := 0
    atp := (BaseStats p.charClass).atp, mst := (BaseStats p.charClass).mst
    evp := (BaseStats p.charClass).evp, hp := (BaseStats p.charClass).hp
    dfp := (BaseStats p.charClass).dfp, ata := (BaseStats p.charClass).ata
    lck := (BaseStats p.charClass).lck, meseta := defaultMeseta
    pad1 := 0, pad2 := 0 }

/-- One static parameter file: a name and its payload bytes. -/
structure ParamFile where
  name : String
  data : List Nat
deriving DecidableEq

/-- `parameterEntry` of character.go: one directory record of the parameter
header (size, checksum, offset, 0x40-byte filename). -/
structure ParameterEntry where
  size : Nat
  checksum : Nat
  offset : Nat
  filename : String
deriving DecidableEq

/-- Serialization of one `parameterEntry` (little-endian fields, filename
padded to 0x40 bytes). -/
def serParameterEntry (e : ParameterEntry) : List Nat :=
  le32 e.size ++ le32 e.checksum ++ le32 e.offset ++
    copyFixed 0x40 (e.filename.toList.map Char.toNat)

/-- Modelled from the spec: the directory records of the parameter header,
with running offsets into the concatenated payload. The cache-building code
is not part of the staged source. -/
def paramEntriesFrom : Nat → List ParamFile → List ParameterEntry
  | _, [] => []
  | off, f :: rest =>
      ⟨f.data.length % 2 ^ 32, crc32 f.data, off % 2 ^ 32, f.name⟩ ::
        paramEntriesFrom (off + f.data.length) rest

/-- The process-wide parameter cache: the file list (`ParamFiles`), the
cached header bytes (`paramHeaderData`) and the concatenated payload the
chunk table (`paramChunkData`) slices. -/
structure ParamCache where
  files : List ParamFile
  header : List Nat
  data : List Nat
deriving DecidableEq

/-- Modelled from the spec: the fixed chunk size the concatenated parameter
payload is split into (the spec fixes only that the size is a constant of
the process; 0x6800 is the conventional value). -/
def paramChunkSize : Nat := 0x6800

/-- Modelled from the spec: build the parameter cache once from the static
files — directory header plus concatenated payload. -/
def buildParamCache (files : List ParamFile) : ParamCache :=
  { files := files
    header := (paramEntriesFrom 0 files).flatMap serParameterEntry
    data := files.flatMap fun f => f.data }

/-- The number of chunks the Parameter Cache holds: the concatenated
payload split into `paramChunkSize`-byte chunks, the last possibly short. -/
def numChunks (c : ParamCache) : Nat :=
  (c.data.length + paramChunkSize - 1) / paramChunkSize

/-- The chunk at index `i` (a missing index yields the empty chunk, as a
missing Go map key yields nil). -/
def paramChunk (c : ParamCache) (i : Nat) : List Nat :=
  (c.data.drop (i * paramChunkSize)).take paramChunkSize

/-- Per-connection session state: the account binding (`guildcard`,
`teamId`), the `config.CharSelected`/`config.SlotNum` bytes, the transient
`flag` byte, and the staged guildcard transfer bytes with their recorded
length. -/
structure Session where
  guildcard : Nat
  teamId : Nat
  charSelected : Nat
  slotNum : Nat
  flag : Nat
  gcData : List Nat
  gcDataSize : Nat
deriving DecidableEq

/-- The value `BBLoginErrorNone` (defined outside the staged source; its
numeric value is immaterial to the claims). -/
def bbLoginErrorNone : Nat := 0

/-- Outbound packets, named for the sender the handler calls. -/
inductive Packet where
  | security (errCode gc teamId : Nat)
  | timestamp
  | shipList
  | scrollMessage
  | options (data : List Nat)
  | characterAck (slot status : Nat)
  | characterPreview (p : CharacterPreview)
  | guildcardHeader (checksum size : Nat)
  | guildcardChunk (index : Nat)
  | parameterHeader (count : Nat) (header : List Nat)
  | parameterChunk (index : Nat) (data : List Nat)
  | checksumAck (status : Nat)
deriving DecidableEq

def Packet.isCharacterPreview : Packet → Bool
  | .characterPreview _ => true
  | _ => false

def Packet.isCharacterAck : Packet → Bool
  | .characterAck _ _ => true
  | _ => false

/-- Inbound packets after decoding, by dispatcher case. -/
inductive InPacket where
  | login
  | disconnect
  | optionsRequest
  | charPreviewReq (slot selecting : Nat)
  | checksum
  | guildcardReq
  | guildcardChunkReq (cont chunkRequested : Nat)
  | parameterHeaderReq
  | parameterChunkReq (flags : Nat)
  | setFlag (flag : Nat)
  | charPreview (slot : Nat) (p : CharacterPreview)
  | menuSelect
  | unknown (ptype : Nat)
deriving DecidableEq

/-- The outcome of one persistence call or of a whole handler. -/
inductive HResult where
  | ok
  | err (e : Nat)
  | crash
deriving DecidableEq

/-- The oracle results of the persistence calls a packet's handler may
make: each field is the outcome the database returns for that call. The
guildcard query yields the row list, each row with its own scan outcome. -/
structure DBEnv where
  keyConfigRow : Except Nat (Option (List Nat))
  insertOptions : Except Nat Unit
  characterRow : Except Nat (Option CharSelectRow)
  gcQuery : Except Nat (List (Except Nat GcRow))
  deleteChar : Except Nat Unit
  insertChar : Except Nat Unit
  updateChar : Except Nat Unit

/-- Everything outside the connection a handler reads: the delegated
account validation outcome, the persistence oracle, and the parameter
cache. -/
structure Env where
  verify : Except Nat Unit
  db : DBEnv
  cache : ParamCache

/-- A write the handler performed against the store, recorded in order.
`execRaw` carries the dressing-room UPDATE verbatim (its SQL text is
malformed, so no table semantics are given to it; no theorem relies on
any). -/
inductive DBWrite where
  | insertOptions (gc : Nat) (data : List Nat)
  | deleteChar (gc slot : Nat)
  | insertChar (row : CharacterRow)
  | execRaw (sql : String) (args : List SQLValue)
deriving DecidableEq

/-- What one handler invocation produced: the updated session, the packets
sent in order, the writes performed in order, and the outcome. -/
structure HOut where
  sess : Session
  sent : List Packet
  writes : List DBWrite
  res : HResult
deriving DecidableEq

/-- `handleCharLogin`: verify the account (delegated); on failure propagate
the error with no response; on success always send security, and when a
character was selected earlier on this connection (`CharSelected == 1`)
also the timestamp, ship list and scroll message. -/
def handleCharLogin (env : Env) (sess : Session) : HOut :=
  match env.verify with
  | .error e => ⟨sess, [], [], .err e⟩
  | .ok _ =>
      ⟨sess,
        .security bbLoginErrorNone sess.guildcard sess.teamId ::
          (if sess.charSelected = 1 then
            [.timestamp, .shipList, .scrollMessage]
          else []),
        [], .ok⟩

/-- `handleKeyConfig`: load the saved key-config row; with no row, install
and persist the 420-byte default; on any persistence error propagate with
no response. -/
def handleKeyConfig (env : Env) (sess : Session) : HOut :=
  match env.db.keyConfigRow with
  | .error e => ⟨sess, [], [], .err e⟩
  | .ok (some optionData) => ⟨sess, [.options optionData], [], .ok⟩
  | .ok none =>
      match env.db.insertOptions with
      | .error e => ⟨sess, [], [], .err e⟩
      | .ok _ =>
          ⟨sess, [.options baseKeyConfig],
            [.insertOptions sess.guildcard baseKeyConfig], .ok⟩

/-- `handleCharacterSelect`: empty slot acknowledges with status 2 and
stops; a populated slot either marks the selection (flag 0x01: security
plus ack status 1, no preview) or sends the full preview (no ack). -/
def handleCharacterSelect (env : Env) (sess : Session)
    (slot selecting : Nat) : HOut :=
  match env.db.characterRow with
  | .error e => ⟨sess, [], [], .err e⟩
  | .ok none => ⟨sess, [.characterAck slot 2], [], .ok⟩
  | .ok (some row) =>
      if selecting = 1 then
        ⟨{ sess with charSelected := 1, slotNum := slot % 256 },
          [.security bbLoginErrorNone sess.guildcard sess.teamId,
            .characterAck slot 1], [], .ok⟩
      else
        ⟨sess, [.characterPreview (previewOf row)], [], .ok⟩

/-- The outcome of the guildcard assembly loop. -/
inductive GcLoopResult where
  | done (es : Fin 104 → GuildcardEntry)
  | err (e : Nat)
  | crash

/-- The loop of `handleGuildcardDataStart`: `for i := 0; rows.Next() && i <
140; i++`, writing into `gcData.Entries[i]`. `Entries` has 104 slots, so
reaching `i = 104` with a row still pending is the Go runtime's
index-out-of-range panic (`crash`); a scan error aborts with that error. -/
def gcLoop (es : Fin 104 → GuildcardEntry) (i : Nat) :
    List (Except Nat GcRow) → GcLoopResult
  | [] => .done es
  | r :: rest =>
      if i < 140 then
        if h : i < 104 then
          match r with
          | .error e => .err e
          | .ok row =>
              gcLoop (Function.update es ⟨i, h⟩ (entryFromRow row)) (i + 1) rest
        else .crash
      else .done es

/-- The aggregate built from the loop's entries: every other region keeps
the zero bytes of `new(GuildcardData)`. -/
def gcDataOf (es : Fin 104 → GuildcardEntry) : GuildcardData :=
  { unknown := fun _ => 0, blocked := fun _ => 0, unknown2 := fun _ => 0
    entries := es, unknown3 := fun _ => 0 }

/-- `handleGuildcardDataStart`: query the account's guildcard entries,
assemble the aggregate, serialize it, store the bytes and their length
(truncated through `uint16`) on the session, and send the header with the
CRC32 checksum and that length. -/
def handleGuildcardDataStart (env : Env) (sess : Session) : HOut :=
  match env.db.gcQuery with
  | .error e => ⟨sess, [], [], .err e⟩
  | .ok rows =>
      match gcLoop (fun _ => zeroGuildcardEntry) 0 rows with
      | .err e => ⟨sess, [], [], .err e⟩
      | .crash => ⟨sess, [], [], .crash⟩
      | .done es =>
          let bytes := serializeGuildcardData (gcDataOf es)
          ⟨{ sess with gcData := bytes, gcDataSize := bytes.length % 65536 },
            [.guildcardHeader (crc32 bytes) (bytes.length % 65536)], [], .ok⟩

/-- The tail both branches of `handleCharacterUpdate` share on success:
mark the session as having the character in the slot (`SlotNum` through
`uint8`), send security and the ack with status 0. -/
def afterCharacterUpdate (sess : Session) (slot : Nat)
    (writes : List DBWrite) : HOut :=
  ⟨{ sess with charSelected := 1, slotNum := slot % 256 },
    [.security bbLoginErrorNone sess.guildcard sess.teamId,
      .characterAck slot 0], writes, .ok⟩

/-- `handleCharacterUpdate`: with the session flag exactly 0x02 issue the
dressing-room UPDATE (recorded verbatim); otherwise delete any existing
row for (account, slot) and insert the freshly seeded one. Any exec error
propagates with no response. -/
def handleCharacterUpdate (env : Env) (sess : Session) (slot : Nat)
    (p : CharacterPreview) : HOut :=
  if sess.flag = 2 then
    match env.db.updateChar with
    | .error e => ⟨sess, [], [], .err e⟩
    | .ok _ =>
        afterCharacterUpdate sess slot
          [.execRaw dressingRoomUpdateSQL (dressingRoomArgs p sess.guildcard slot)]
  else
    match env.db.deleteChar with
    | .error e => ⟨sess, [], [], .err e⟩
    | .ok _ =>
        match env.db.insertChar with
        | .error e => ⟨sess, [], [.deleteChar sess.guildcard slot], .err e⟩
        | .ok _ =>
            afterCharacterUpdate sess slot
              [.deleteChar sess.guildcard slot,
                .insertChar (newCharacterRow sess.guildcard slot p)]

/-- `processCharacterPacket`: the dispatcher, one case per packet type. -/
def processCharacterPacket (env : Env) (sess : Session) (pkt : InPacket) : HOut :=
  match pkt with
  | .login => handleCharLogin env sess
  | .disconnect => ⟨sess, [], [], .ok⟩
  | .optionsRequest => handleKeyConfig env sess
  | .charPreviewReq slot selecting => handleCharacterSelect env sess slot selecting
  | .checksum => ⟨sess, [.checksumAck 1], [], .ok⟩
  | .guildcardReq => handleGuildcardDataStart env sess
  | .guildcardChunkReq cont chunkRequested =>
      if cont = 1 then ⟨sess, [.guildcardChunk chunkRequested], [], .ok⟩
      else ⟨sess, [], [], .ok⟩
  | .parameterHeaderReq =>
      ⟨sess, [.parameterHeader (env.cache.files.length % 2 ^ 32) env.cache.header],
        [], .ok⟩
  | .parameterChunkReq flags =>
      ⟨sess, [.parameterChunk flags (paramChunk env.cache flags)], [], .ok⟩
  | .setFlag flag => ⟨{ sess with flag := flag }, [], [], .ok⟩
  | .charPreview slot p => handleCharacterUpdate env sess slot p
  | .menuSelect => ⟨sess, [], [], .ok⟩
  | .unknown _ => ⟨sess, [], [], .ok⟩

/-- The concrete store the write operations act on: the `player_options`
rows (guildcard, key_config) and the `characters` rows. -/
structure CharDB where
  options : List (Nat × List Nat)
  characters : List CharacterRow
deriving DecidableEq

/-- Interpret one recorded write on the store. The raw dressing-room
UPDATE's SQL is malformed, so it is given no table semantics; no theorem
depends on that case. -/
def applyWrite (w : DBWrite) (db : CharDB) : CharDB :=
  match w with
  | .insertOptions gc data => { db with options := db.options ++ [(gc, data)] }
  | .deleteChar gc slot =>
      { db with characters :=
          db.characters.filter fun r => !(r.guildcard == gc && r.slot == slot) }
  | .insertChar row => { db with characters := db.characters ++ [row] }
  | .execRaw _ _ => db

def applyWrites (db : CharDB) (ws : List DBWrite) : CharDB :=
  ws.foldl (fun d w => applyWrite w d) db

/-- The character rows stored for (account, slot). -/
def charRowsFor (db : CharDB) (gc slot : Nat) : List CharacterRow :=
  db.characters.filter fun r => r.guildcard == gc && r.slot == slot

/-- First saved key-config row for an account, as the SELECT returns it. -/
def lookupOptions : List (Nat × List Nat) → Nat → Option (List Nat)
  | [], _ => none
  | (g, d) :: rest, gc => if g = gc then some d else lookupOptions rest gc

/-- The persistence oracle a store `db` answers for an options request by
account `gc` (all calls succeed; the row is the stored one, if any). -/
def keyConfigEnv (db : CharDB) (gc : Nat) : Env :=
  { verify := .ok ()
    db :=
      { keyConfigRow := .ok (lookupOptions db.options gc)
        insertOptions := .ok ()
        characterRow := .ok none
        gcQuery := .ok []
        deleteChar := .ok ()
        insertChar := .ok ()
        updateChar := .ok () }
    cache := ⟨[], [], []⟩ }

/-- One options request against the store: dispatch the packet with the
store's oracle, then apply the recorded writes to the store. -/
def runKeyConfig (db : CharDB) (sess : Session) :
    CharDB × List Packet × HResult :=
  let o := processCharacterPacket (keyConfigEnv db sess.guildcard) sess .optionsRequest
  (applyWrites db o.writes, o.sent, o.res)

theorem filter_not_filter {α : Type} (p : α → Bool) (l : List α) :
    (l.filter fun a => !(p a)).filter p = [] := by
  induction l with
  | nil => rfl
  | cons a t ih => cases h : p a <;> simp [List.filter_cons, h, ih]

theorem filter_and_self {α : Type} (p : α → Bool) (l : List α) :
    (l.filter p).filter p = l.filter p := by
  induction l with
  | nil => rfl
  | cons a t ih => cases h : p a <;> simp [List.filter_cons, h, ih]

theorem lookupOptions_append_none (t : List (Nat × List Nat)) (gc : Nat)
    (v : List Nat) (h : lookupOptions t gc = none) :
    lookupOptions (t ++ [(gc, v)]) gc = some v := by
  induction t with
  | nil => simp [lookupOptions]
  | cons a rest ih =>
      by_cases hg : a.1 = gc
      · exfalso
        simp [lookupOptions, hg] at h
      · simp only [lookupOptions, hg, if_false, List.cons_append] at h ⊢
        exact ih h

/-- A session with nothing selected, account guildcard 1, used as the
concrete input of evaluated theorems. -/
def sess0 : Session := ⟨1, 0, 0, 0, 0, [], 0⟩

/-- A guildcard-entries row with every column present. -/
def gcRow0 : GcRow := ⟨7, [], [], [], 0, 0, 0, []⟩

/-- An environment whose guildcard query returns the given rows and whose
other calls all succeed trivially. -/
def envGcRows (rows : List (Except Nat GcRow)) : Env :=
  { verify := .ok ()
    db :=
      { keyConfigRow := .ok none
        insertOptions := .ok ()
        characterRow := .ok none
        gcQuery := .ok rows
        deleteChar := .ok ()
        insertChar := .ok ()
        updateChar := .ok () }
    cache := ⟨[], [], []⟩ }

/-- C1: the claim says writing entry `i` stays in bounds for every `i < N ≤
140`; the code's own comment says the same ("Maximum of 140 entries can be
sent"), but `Entries` has 104 slots, so the 105th returned row makes the
loop index slot 104 of a 104-element array: the handler crashes with an
index-out-of-range panic and sends nothing, while 104 rows still succeed. -/
theorem guildcard_assembly_out_of_bounds :
    (handleGuildcardDataStart (envGcRows (List.replicate 105 (Except.ok gcRow0)))
        sess0).res = HResult.crash ∧
    (handleGuildcardDataStart (envGcRows (List.replicate 105 (Except.ok gcRow0)))
        sess0).sent = [] ∧
    (handleGuildcardDataStart (envGcRows (List.replicate 104 (Except.ok gcRow0)))
        sess0).res = HResult.ok :=
  ⟨rfl, rfl, rfl⟩

/-- The output of a successful guildcard-data request from entry array
`es`: stored bytes, truncated stored length, header with checksum and that
length. -/
def gcSuccessOut (sess : Session) (es : Fin 104 → GuildcardEntry) : HOut :=
  { sess :=
      { sess with
        gcData := serializeGuildcardData (gcDataOf es)
        gcDataSize := (serializeGuildcardData (gcDataOf es)).length % 65536 }
    sent :=
      [.guildcardHeader (crc32 (serializeGuildcardData (gcDataOf es)))
        ((serializeGuildcardData (gcDataOf es)).length % 65536)]
    writes := []
    res := .ok }

theorem handleGuildcardDataStart_shape (env : Env) (sess : Session) :
    (∃ e, handleGuildcardDataStart env sess = ⟨sess, [], [], .err e⟩) ∨
    handleGuildcardDataStart env sess = ⟨sess, [], [], .crash⟩ ∨
    (∃ es, handleGuildcardDataStart env sess = gcSuccessOut sess es) := by
  cases hq : env.db.gcQuery with
  | error e => exact .inl ⟨e, by simp [handleGuildcardDataStart, hq]⟩
  | ok rows =>
      cases hl : gcLoop (fun _ => zeroGuildcardEntry) 0 rows with
      | done es =>
          refine .inr (.inr ⟨es, ?_⟩)
          simp [handleGuildcardDataStart, hq, hl, gcSuccessOut]
      | err e => exact .inl ⟨e, by simp [handleGuildcardDataStart, hq, hl]⟩
      | crash => exact .inr (.inl (by simp [handleGuildcardDataStart, hq, hl]))

/-- C2: on every successful guildcard-data request the session stores the
serialized bytes with their exact length (the stored length equals the byte
length: the aggregate serializes to 54672 bytes, which the uint16 cast
preserves), the header sent carries exactly the CRC32 of the stored bytes
and that length, and a repeated request on the resulting session rebuilds
identical bytes and sends an identical header. -/
theorem guildcard_transfer_checksum_and_length (env : Env) (sess : Session) :
    (match (handleGuildcardDataStart env sess).res with
     | .ok =>
        (handleGuildcardDataStart env sess).sent =
          [.guildcardHeader
            (crc32 (handleGuildcardDataStart env sess).sess.gcData)
            (handleGuildcardDataStart env sess).sess.gcDataSize] ∧
        (handleGuildcardDataStart env sess).sess.gcDataSize =
          (handleGuildcardDataStart env sess).sess.gcData.length ∧
        (handleGuildcardDataStart env sess).sess.gcData.length = 54672
     | .err _ => True
     | .crash => True) ∧
    (handleGuildcardDataStart env (handleGuildcardDataStart env sess).sess).sess.gcData
      = (handleGuildcardDataStart env sess).sess.gcData ∧
    (handleGuildcardDataStart env (handleGuildcardDataStart env sess).sess).sent
      = (handleGuildcardDataStart env sess).sent := by
  constructor
  · rcases handleGuildcardDataStart_shape env sess with ⟨e, h⟩ | h | ⟨es, h⟩
    · simp [h]
    · simp [h]
    · simp [h, gcSuccessOut, serializeGuildcardData_length]
  · cases hq : env.db.gcQuery with
    | error e => simp [handleGuildcardDataStart, hq]
    | ok rows =>
        cases hl : gcLoop (fun _ => zeroGuildcardEntry) 0 rows with
        | done es => simp [handleGuildcardDataStart, hq, hl]
        | err e => simp [handleGuildcardDataStart, hq, hl]
        | crash => simp [handleGuildcardDataStart, hq, hl]

/-- C3: per character preview/select request exactly one response shape is
sent. Empty slot: only the ack with status 2, and processing stops.
Populated slot with selecting flag 0x01: the session marks the active
character in the slot and security plus the "selected" ack go out, with no
preview among the sent packets. Populated slot otherwise: only the full
preview, with no ack among the sent packets. -/
theorem character_select_response_shapes (env : Env) (sess : Session)
    (slot selecting : Nat) :
    match env.db.characterRow with
    | .error _ => True
    | .ok none =>
        processCharacterPacket env sess (.charPreviewReq slot selecting) =
          ⟨sess, [.characterAck slot 2], [], .ok⟩
    | .ok (some row) =>
        if selecting = 1 then
          processCharacterPacket env sess (.charPreviewReq slot selecting) =
            ⟨{ sess with charSelected := 1, slotNum := slot % 256 },
              [.security bbLoginErrorNone sess.guildcard sess.teamId,
                .characterAck slot 1], [], .ok⟩ ∧
          ((processCharacterPacket env sess
              (.charPreviewReq slot selecting)).sent.all
            fun p => !p.isCharacterPreview) = true
        else
          processCharacterPacket env sess (.charPreviewReq slot selecting) =
            ⟨sess, [.characterPreview (previewOf row)], [], .ok⟩ ∧
          ((processCharacterPacket env sess
              (.charPreviewReq slot selecting)).sent.all
            fun p => !p.isCharacterAck) = true := by
  cases hr : env.db.characterRow with
  | error e => simp
  | ok o =>
      cases o with
      | none => simp [processCharacterPacket, handleCharacterSelect, hr]
      | some row =>
          by_cases hs : selecting = 1 <;>
            simp [processCharacterPacket, handleCharacterSelect, hr, hs,
              Packet.isCharacterPreview, Packet.isCharacterAck]

/-- C7: per Login packet, a validation failure propagates the error and
sends nothing; on success a security acknowledgment always goes out first,
and the timestamp, ship list and scroll message follow exactly when the
session's CharSelected flag is set. -/
theorem char_login_behavior (env : Env) (sess : Session) :
    match env.verify with
    | .error e =>
        processCharacterPacket env sess .login = ⟨sess, [], [], .err e⟩
    | .ok _ =>
        (processCharacterPacket env sess .login).sess = sess ∧
        (processCharacterPacket env sess .login).res = .ok ∧
        (processCharacterPacket env sess .login).sent.head? =
          some (.security bbLoginErrorNone sess.guildcard sess.teamId) ∧
        (if sess.charSelected = 1 then
          (processCharacterPacket env sess .login).sent =
            [.security bbLoginErrorNone sess.guildcard sess.teamId,
              .timestamp, .shipList, .scrollMessage]
        else
          (processCharacterPacket env sess .login).sent =
            [.security bbLoginErrorNone sess.guildcard sess.teamId]) := by
  cases hv : env.verify with
  | error e => simp [processCharacterPacket, handleCharLogin, hv]
  | ok u =>
      by_cases hc : sess.charSelected = 1 <;>
        simp [processCharacterPacket, handleCharLogin, hv, hc]

/-- C9: an options request for an account with a saved key-config row sends
those bytes and writes nothing; with no saved row it persists the 420-byte
default block and sends those same 420 bytes; a second request for the same
account then finds the inserted row and returns the identical bytes without
inserting again. -/
theorem key_config_default_persistence (db : CharDB) (sess : Session) :
    match lookupOptions db.options sess.guildcard with
    | some bs => runKeyConfig db sess = (db, [.options bs], .ok)
    | none =>
        baseKeyConfig.length = 420 ∧
        runKeyConfig db sess =
          ({ db with options := db.options ++ [(sess.guildcard, baseKeyConfig)] },
            [.options baseKeyConfig], .ok) ∧
        runKeyConfig
            { db with options := db.options ++ [(sess.guildcard, baseKeyConfig)] }
            sess =
          ({ db with options := db.options ++ [(sess.guildcard, baseKeyConfig)] },
            [.options baseKeyConfig], .ok) := by
  cases hl : lookupOptions db.options sess.guildcard with
  | some bs =>
      simp [runKeyConfig, processCharacterPacket, handleKeyConfig, keyConfigEnv,
        hl, applyWrites]
  | none =>
      refine ⟨by simp [baseKeyConfig], ?_, ?_⟩
      · simp [runKeyConfig, processCharacterPacket, handleKeyConfig, keyConfigEnv,
          hl, applyWrites, applyWrite]
      · have h2 := lookupOptions_append_none db.options sess.guildcard baseKeyConfig hl
        simp [runKeyConfig, processCharacterPacket, handleKeyConfig, keyConfigEnv,
          h2, applyWrites]

/-- C4: with the dressing-room flag unset, every successful create/update
first deletes the (account, slot) row — deletion always succeeds and is
idempotent, so a second delete of an already-empty slot changes nothing —
then inserts exactly one row seeded from the submitted preview, the base
stat entry for the submitted class and the fixed default currency; applying
those writes to any store leaves exactly the one new row for (account,
slot). -/
theorem character_recreate_semantics (env : Env) (sess : Session) (slot : Nat)
    (p : CharacterPreview) :
    if sess.flag = 2 then True else
    match env.db.deleteChar, env.db.insertChar with
    | .ok _, .ok _ =>
        (handleCharacterUpdate env sess slot p).res = .ok ∧
        (handleCharacterUpdate env sess slot p).writes =
          [.deleteChar sess.guildcard slot,
            .insertChar (newCharacterRow sess.guildcard slot p)] ∧
        (newCharacterRow sess.guildcard slot p).nameColor = p.nameColor ∧
        (newCharacterRow sess.guildcard slot p).charClass = p.charClass ∧
        (newCharacterRow sess.guildcard slot p).name = p.name ∧
        (newCharacterRow sess.guildcard slot p).atp = (BaseStats p.charClass).atp ∧
        (newCharacterRow sess.guildcard slot p).lck = (BaseStats p.charClass).lck ∧
        (newCharacterRow sess.guildcard slot p).meseta = defaultMeseta ∧
        (∀ db : CharDB,
          charRowsFor
              (applyWrites db (handleCharacterUpdate env sess slot p).writes)
              sess.guildcard slot =
            [newCharacterRow sess.guildcard slot p]) ∧
        (∀ db : CharDB,
          applyWrite (.deleteChar sess.guildcard slot)
              (applyWrite (.deleteChar sess.guildcard slot) db) =
            applyWrite (.deleteChar sess.guildcard slot) db)
    | _, _ => True := by
  by_cases hf : sess.flag = 2
  · simp [hf]
  · cases hd : env.db.deleteChar with
    | error e => simp [hf, hd]
    | ok u =>
        cases hi : env.db.insertChar with
        | error e => simp [hf, hd, hi]
        | ok v =>
            have hw : (handleCharacterUpdate env sess slot p).writes =
                [.deleteChar sess.guildcard slot,
                  .insertChar (newCharacterRow sess.guildcard slot p)] := by
              simp [handleCharacterUpdate, hf, hd, hi, afterCharacterUpdate]
            have hres : (handleCharacterUpdate env sess slot p).res = .ok := by
              simp [handleCharacterUpdate, hf, hd, hi, afterCharacterUpdate]
            simp only [hf, hd, hi, if_false]
            refine ⟨hres, hw, rfl, rfl, rfl, rfl, rfl, rfl, ?_, ?_⟩
            · intro db
              rw [hw]
              simp [applyWrites, applyWrite, charRowsFor, List.filter_append,
                filter_not_filter, newCharacterRow]
            · intro db
              simp [applyWrite, filter_and_self]

/-- C10: after a set-flag packet stores any byte `f`, a character
create/update takes the in-place dressing-room path exactly when the stored
flag equals 0x02 — its only write is the raw UPDATE — and for every other
value takes the delete-then-insert path, whose writes destroy any existing
character in the requested slot, leaving only the freshly inserted row. -/
theorem dressing_room_flag_gates_update_path (env : Env) (sess : Session)
    (f slot : Nat) (p : CharacterPreview) :
    match env.db.updateChar, env.db.deleteChar, env.db.insertChar with
    | .ok _, .ok _, .ok _ =>
        ((processCharacterPacket env sess (.setFlag f)).sess).flag = f ∧
        (if f = 2 then
          (processCharacterPacket env
              (processCharacterPacket env sess (.setFlag f)).sess
              (.charPreview slot p)).writes =
            [.execRaw dressingRoomUpdateSQL
              (dressingRoomArgs p sess.guildcard slot)]
        else
          (processCharacterPacket env
              (processCharacterPacket env sess (.setFlag f)).sess
              (.charPreview slot p)).writes =
            [.deleteChar sess.guildcard slot,
              .insertChar (newCharacterRow sess.guildcard slot p)] ∧
          (∀ db : CharDB,
            charRowsFor
                (applyWrites db
                  (processCharacterPacket env
                    (processCharacterPacket env sess (.setFlag f)).sess
                    (.charPreview slot p)).writes)
                sess.guildcard slot =
              [newCharacterRow sess.guildcard slot p]))
    | _, _, _ => True := by
  cases hu : env.db.updateChar with
  | error e => simp [hu]
  | ok w =>
      cases hd : env.db.deleteChar with
      | error e => simp [hu, hd]
      | ok u =>
          cases hi : env.db.insertChar with
          | error e => simp [hu, hd, hi]
          | ok v =>
              refine ⟨rfl, ?_⟩
              by_cases hf : f = 2
              · simp [processCharacterPacket, handleCharacterUpdate, hf, hu,
                  afterCharacterUpdate]
              · rw [if_neg hf]
                have hw : (processCharacterPacket env
                    (processCharacterPacket env sess (.setFlag f)).sess
                    (.charPreview slot p)).writes =
                    [.deleteChar sess.guildcard slot,
                      .insertChar (newCharacterRow sess.guildcard slot p)] := by
                  simp [processCharacterPacket, handleCharacterUpdate, hf, hd, hi,
                    afterCharacterUpdate]
                refine ⟨hw, ?_⟩
                intro db
                rw [hw]
                simp [applyWrites, applyWrite, charRowsFor, List.filter_append,
                  filter_not_filter, newCharacterRow]

/-- C8: whenever processing a packet ends in a propagated error (every
error of this file is a persistence or validation failure surfaced by a
handler), no response packet has been sent for that request and the
connection's session state — selected-character flag, slot number, flag
byte and guildcard transfer state included — is exactly what it was. -/
theorem persistence_failure_leaves_session_unchanged (env : Env)
    (sess : Session) (pkt : InPacket) :
    match (processCharacterPacket env sess pkt).res with
    | .err _ =>
        (processCharacterPacket env sess pkt).sess = sess ∧
        (processCharacterPacket env sess pkt).sent = []
    | .ok => True
    | .crash => True := by
  cases pkt with
  | login =>
      cases hv : env.verify <;> simp [processCharacterPacket, handleCharLogin, hv]
  | disconnect => simp [processCharacterPacket]
  | optionsRequest =>
      cases hk : env.db.keyConfigRow with
      | error e => simp [processCharacterPacket, handleKeyConfig, hk]
      | ok o =>
          cases o with
          | none =>
              cases hi : env.db.insertOptions <;>
                simp [processCharacterPacket, handleKeyConfig, hk, hi]
          | some bs => simp [processCharacterPacket, handleKeyConfig, hk]
  | charPreviewReq slot selecting =>
      cases hr : env.db.characterRow with
      | error e => simp [processCharacterPacket, handleCharacterSelect, hr]
      | ok o =>
          cases o with
          | none => simp [processCharacterPacket, handleCharacterSelect, hr]
          | some row =>
              by_cases hs : selecting = 1 <;>
                simp [processCharacterPacket, handleCharacterSelect, hr, hs]
  | checksum => simp [processCharacterPacket]
  | guildcardReq =>
      rcases handleGuildcardDataStart_shape env sess with ⟨e, h⟩ | h | ⟨es, h⟩ <;>
        simp [processCharacterPacket, h, gcSuccessOut]
  | guildcardChunkReq cont chunkRequested =>
      by_cases hc : cont = 1 <;> simp [processCharacterPacket, hc]
  | parameterHeaderReq => simp [processCharacterPacket]
  | parameterChunkReq flags => simp [processCharacterPacket]
  | setFlag f => simp [processCharacterPacket]
  | charPreview slot p =>
      by_cases hf : sess.flag = 2
      · cases hu : env.db.updateChar <;>
          simp [processCharacterPacket, handleCharacterUpdate, hf, hu,
            afterCharacterUpdate]
      · cases hd : env.db.deleteChar with
        | error e =>
            simp [processCharacterPacket, handleCharacterUpdate, hf, hd]
        | ok u =>
            cases hi : env.db.insertChar <;>
              simp [processCharacterPacket, handleCharacterUpdate, hf, hd, hi,
                afterCharacterUpdate]
  | menuSelect => simp [processCharacterPacket]
  | unknown t => simp [processCharacterPacket]

/-- Byte-level check that `pre` starts with `frag`. -/
def listStartsWith : List Char → List Char → Bool
  | _, [] => true
  | [], _ :: _ => false
  | a :: as, b :: bs => a == b && listStartsWith as bs

/-- Byte-level check that `frag` occurs somewhere inside the text. -/
def listHasFragment : List Char → List Char → Bool
  | [], frag => frag.isEmpty
  | a :: rest, frag => listStartsWith (a :: rest) frag || listHasFragment rest frag

/-- A concrete submitted preview whose appearance fields are pairwise
distinct, used to exhibit the dressing-room parameter misbinding. -/
def pC5 : CharacterPreview :=
  { experience := 0, level := 0, gcStr := [], unknown := []
    nameColor := 10, model := 1, pad := [], nameColorChksm := 11
    sectionId := 2, charClass := 3, v2flags := 0, version := 0, v1flags := 0
    costume := 4, skin := 5, face := 6, head := 7, hair := 8
    hairRed := 20, hairGreen := 21, hairBlue := 22
    propX := 100, propY := 200, name := [65, 66], playtime := 0 }

/-- C5: evaluated at a concrete dressing-room update (session flag 0x02,
account 1, slot 3), the handler's only write is the raw UPDATE whose SQL
text contains the malformed fragment between hair_blue and proportion_x
(so the statement is not executable SQL), and whose argument list binds the
submitted name bytes to the 12th placeholder (column proportion_x) and
PropY to the 14th (column name), where the matching binding the claim
describes requires PropX and the name bytes respectively: the bound
parameter lists differ. -/
theorem dressing_room_update_misbinding :
    (processCharacterPacket (envGcRows []) { sess0 with flag := 2 }
        (.charPreview 3 pC5)).writes =
      [.execRaw dressingRoomUpdateSQL (dressingRoomArgs pC5 1 3)] ∧
    listHasFragment dressingRoomUpdateSQL.toList
      "hair_blue,=? proportion_x=?".toList = true ∧
    (dressingRoomArgs pC5 1 3).get? 11 = some (.bytes pC5.name) ∧
    (dressingRoomArgs pC5 1 3).get? 13 = some (.f32 pC5.propY) ∧
    (claimMatchedDressingArgs pC5 1 3).get? 11 = some (.f32 pC5.propX) ∧
    (claimMatchedDressingArgs pC5 1 3).get? 13 = some (.bytes pC5.name) ∧
    (dressingRoomArgs pC5 1 3 = claimMatchedDressingArgs pC5 1 3) = False := by
  refine ⟨rfl, by decide, rfl, rfl, rfl, rfl, eq_false (by decide)⟩

/-- C6 (amended): the parameter header handler sends the cached header
bytes together with the number of parameter files the cache was built from
(through the uint32 cast), not the cache's chunk count. -/
theorem parameter_header_sends_file_count (env : Env) (sess : Session) :
    processCharacterPacket env sess .parameterHeaderReq =
      ⟨sess,
        [.parameterHeader (env.cache.files.length % 2 ^ 32) env.cache.header],
        [], .ok⟩ := rfl

/-- The claim's statement at one request: the count sent with the parameter
header equals the total number of chunks the Parameter Cache holds. -/
def paramHeaderCarriesChunkCount (env : Env) (sess : Session) : Prop :=
  (processCharacterPacket env sess .parameterHeaderReq).sent =
    [.parameterHeader (numChunks env.cache % 2 ^ 32) env.cache.header]

/-- One parameter file longer than a single chunk. -/
def fileC6 : ParamFile := ⟨"ItemPMT.prs", List.replicate 26625 0⟩

/-- An environment whose parameter cache was built from that one file. -/
def envC6 : Env :=
  { verify := .ok (), db := (envGcRows []).db, cache := buildParamCache [fileC6] }

/-- C6 counterexample: a cache built from one 26625-byte file holds two
chunks, yet the handler sends count 1 (the file count), so the claim's
equation is false at this request. -/
theorem parameter_header_chunk_count_counterexample :
    numChunks envC6.cache = 2 ∧
    (processCharacterPacket envC6 sess0 .parameterHeaderReq).sent =
      [.parameterHeader 1 envC6.cache.header] ∧
    paramHeaderCarriesChunkCount envC6 sess0 = False := by
  have hlen : envC6.cache.data.length = 26625 := by
    simp only [envC6, buildParamCache, List.flatMap_cons, List.flatMap_nil,
      List.append_nil, fileC6, List.length_replicate]
  have hnum : numChunks envC6.cache = 2 := by
    rw [numChunks, hlen, paramChunkSize]
  refine ⟨hnum, rfl, ?_⟩
  apply eq_false
  intro h
  rw [paramHeaderCarriesChunkCount, hnum] at h
  have hsent : (processCharacterPacket envC6 sess0 .parameterHeaderReq).sent =
      [.parameterHeader 1 envC6.cache.header] := rfl
  rw [hsent] at h
  simp at h
